import Mathlib

/-!
Verification of the `fem-reference-results` repository: a shallow embedding
of its two shared utility modules (`src/femref/utils.py`,
`src/femref/cubit_utils.py`) and of the three generator scripts
(`generate_hyperelastic_bending_beam.py`, `generate_block_torsion.py`,
`generate_semicircle.py`), together with theorems settling the claims about
the spec.

The external meshing tool (CubitPy) is modelled as an opaque service: its
command executor is passed in as a function parameter, its entity queries as
data, and the scripts' interactions with it as an explicit event trace.
-/

/-! ## Python values

The values stored in the `options` dictionaries and boundary-condition
descriptions of this repository: ints, floats, strings, lists and nested
dicts.  A Python float is carried by its `str()` rendering, since no claim
depends on float arithmetic, only on the emitted text.  A Python dict is a
key-value list in insertion order (Python dicts preserve insertion order and
have unique keys). -/

inductive PyVal where
  | vInt (n : Int)
  | vFloat (render : String)
  | vStr (s : String)
  | vList (elems : List PyVal)
  | vDict (entries : List (String × PyVal))

mutual

/-- Python `str()` on a `PyVal`.  Ints and strings render exactly as in
Python; floats carry their rendering; list rendering follows `str(list)`.
(Nested-dict rendering drops the quotes Python puts around keys; the
repository never stringifies a dict.) -/
def pyStr : PyVal → String
  | .vInt n => toString n
  | .vFloat render => render
  | .vStr s => s
  | .vList elems => "[" ++ pyStrList elems ++ "]"
  | .vDict entries => "\x7b" ++ pyStrEntries entries ++ "\x7d"

/-- Comma-separated rendering of the elements of a Python list. -/
def pyStrList : List PyVal → String
  | [] => ""
  | [v] => pyStr v
  | v :: rest => pyStr v ++ ", " ++ pyStrList rest

/-- Comma-separated rendering of the entries of a Python dict. -/
def pyStrEntries : List (String × PyVal) → String
  | [] => ""
  | [kv] => kv.1 ++ ": " ++ pyStr kv.2
  | kv :: rest => kv.1 ++ ": " ++ pyStr kv.2 ++ ", " ++ pyStrEntries rest

end

/-- Python dict subscription `d[key]`, as an `Option`: `none` models the
`KeyError` case.  Keys in a Python dict are unique, so first-match lookup is
exact. -/
def dictGet (options : List (String × PyVal)) (key : String) : Option PyVal :=
  match options with
  | [] => none
  | kv :: rest => if kv.1 = key then some kv.2 else dictGet rest key

/-- Python `hasattr(value, "items")` on the value types used by the
repository: true exactly for dicts. -/
def PyVal.hasItems : PyVal → Bool
  | .vDict _ => true
  | _ => false

/-! ## `femref/utils.py`: `write_readme` -/

/-- Python `str.endswith(suffix)`: `suffix` is a suffix of the string. -/
def pyEndswith (s suffix : String) : Bool :=
  suffix.data.isSuffixOf s.data

/-- The file produced by `write_readme`: its path and full text content. -/
structure ReadmeFile where
  path : String
  content : String
deriving DecidableEq

/-- A Python exception escaping `write_readme`.  `KeyError` carries the key,
plus the path of the file that was already opened (and hence exists,
truncated) and the text written to it before the exception. -/
inductive PyError where
  | keyError (key : String) (openedPath : String) (written : String)
deriving DecidableEq

/-- The path resolution at the top of `write_readme`
(`src/femref/utils.py` lines 19-21): ensure the filepath contains
`README.md`. -/
def readme_filepath (filepath : String) : String :=
  if pyEndswith filepath "README.md" then filepath else filepath ++ "/README.md"

/-- The body of the `for key, value in options.items():` loop of
`write_readme` (`src/femref/utils.py` lines 26-33), as a fold step over the
written text: entries whose value has `items` (dicts) get a `## key` header,
the table header and one `| param | val |` row per pair; other entries write
nothing. -/
def readmeWriteStep (acc : String) (kv : String × PyVal) : String :=
  match kv.2 with
  | .vDict entries =>
    (entries.foldl
      (fun a pv => a ++ "| " ++ pv.1 ++ " | " ++ pyStr pv.2 ++ " |\n")
      (acc ++ "## " ++ kv.1 ++ "\n" ++ "| Parameter | Value |\n|:--|:--|\n"))
      ++ "\n\n"
  | _ => acc

/-- Shallow embedding of `write_readme` (`src/femref/utils.py` lines 5-36).
The sequence of `f.write` calls is modelled by accumulating the written text;
`now` stands for `datetime.datetime.now().strftime('%B %d, %Y at %I:%M%p ')`.
A missing `'title'` or `'description'` key raises `KeyError` after the file
has been opened, leaving behind the text written so far. -/
def write_readme (filepath : String) (options : List (String × PyVal))
    (now : String) : Except PyError ReadmeFile :=
  let filepath := readme_filepath filepath
  match dictGet options "title" with
  | none => .error (.keyError "title" filepath "")
  | some title =>
    let text := "# " ++ pyStr title ++ "\n\n"
    match dictGet options "description" with
    | none => .error (.keyError "description" filepath text)
    | some description =>
      let text := text ++ pyStr description ++ "\n\n\n"
      let text := options.foldl readmeWriteStep text
      .ok ⟨filepath, text ++ "Last updated: " ++ now ++ "\n"⟩

/-- The path of the file `write_readme` touched, whether it completed or
raised `KeyError` after opening the file. -/
def readmePathOf : Except PyError ReadmeFile → String
  | .ok f => f.path
  | .error (.keyError _ openedPath _) => openedPath

/-! ## Spec-side description of the README layout (for claim C3)

These definitions follow the words of the claim, not the code: a `## key`
section per dict-valued entry, in dictionary order, each holding a two-column
markdown table with one row per key-value pair. -/

/-- One row of the parameter table, from the claim's words. -/
def readmeTableRow (param : String) (val : PyVal) : String :=
  "| " ++ param ++ " | " ++ pyStr val ++ " |\n"

/-- Concatenation of the table rows of one section, one row per key-value
pair of the nested dictionary, in its iteration order, from the claim's
words. -/
def readmeTableRows : List (String × PyVal) → String
  | [] => ""
  | pv :: rest => readmeTableRow pv.1 pv.2 ++ readmeTableRows rest

/-- One `## key` section with its two-column table, from the claim's words. -/
def readmeSection (key : String) (entries : List (String × PyVal)) : String :=
  "## " ++ key ++ "\n" ++ "| Parameter | Value |\n|:--|:--|\n"
    ++ readmeTableRows entries ++ "\n\n"

/-- All sections of the README body: one `## key` section per entry of
`options` whose value is itself a dictionary, in the dictionary's iteration
order, and nothing for any other entry, from the claim's words. -/
def readmeSections : List (String × PyVal) → String
  | [] => ""
  | kv :: rest =>
    (match kv.2 with
      | .vDict entries => readmeSection kv.1 entries
      | _ => "") ++ readmeSections rest

/-! ## `femref/cubit_utils.py`: `cubit_cmd` and `print_mesh_statistics`

The CubitPy session is opaque: we model only what `cubit_cmd` observes of
it, namely `cubit.parse_cubit_list(track_id, "all")`, the list of IDs of
all currently existing entities of a tracked type.  The effect of
`cubit.cmd(command)` on the session is an arbitrary function, passed in as
the parameter `cmdEffect`. -/

/-- The meshing session as `cubit_cmd` observes it:
`parse_cubit_list track_id` is `cubit.parse_cubit_list(track_id, "all")`,
the IDs of all existing entities of type `track_id`. -/
structure CubitPy where
  parse_cubit_list : String → List Nat

/-- Return value of `cubit_cmd`: either a single ID (the flattened case) or
a list of IDs. -/
inductive CubitIds where
  | single (id : Nat)
  | ids (l : List Nat)
deriving DecidableEq

/-- The set of IDs a `CubitIds` value stands for. -/
def CubitIds.toFinset : CubitIds → Finset Nat
  | .single id => {id}
  | .ids l => l.toFinset

/-- Shallow embedding of `cubit_cmd` (`src/femref/cubit_utils.py` lines
6-42).  `cmdEffect` is the opaque external meshing engine: the effect of
`cubit.cmd(command)` on the session.  Python's `set(...)` is modelled by
`List.dedup`, the set difference `after_cmd - before_cmd` by filtering, and
`list(...)` keeps those elements (the order of `list(set)` is unspecified in
Python; the claims only concern the underlying set). -/
def cubit_cmd (command : String) (cubit : CubitPy)
    (cmdEffect : String → CubitPy → CubitPy)
    (track_id : String) (flatten_if_possible : Bool) : CubitPy × CubitIds :=
  let before_cmd := (cubit.parse_cubit_list track_id).dedup
  let cubit2 := cmdEffect command cubit
  let after_cmd := (cubit2.parse_cubit_list track_id).dedup
  let new_ids := after_cmd.filter (fun i => !(before_cmd.contains i))
  match new_ids, flatten_if_possible with
  | [x], true => (cubit2, .single x)
  | l, _ => (cubit2, .ids l)

/-- The tracked entity IDs existing in the session before a command. -/
def entitiesBefore (cubit : CubitPy) (track_id : String) : Finset Nat :=
  (cubit.parse_cubit_list track_id).toFinset

/-- The tracked entity IDs existing in the session after `cmdEffect` has
executed `command`. -/
def entitiesAfter (command : String) (cubit : CubitPy)
    (cmdEffect : String → CubitPy → CubitPy) (track_id : String) : Finset Nat :=
  ((cmdEffect command cubit).parse_cubit_list track_id).toFinset

/-- The `new_ids` list computed inside `cubit_cmd` (step 4 of
`src/femref/cubit_utils.py`): the tracked IDs present after the command and
not before it. -/
def cubitNewIds (command : String) (cubit : CubitPy)
    (cmdEffect : String → CubitPy → CubitPy) (track_id : String) : List Nat :=
  (((cmdEffect command cubit).parse_cubit_list track_id).dedup).filter
    (fun i => !(((cubit.parse_cubit_list track_id).dedup).contains i))

/-- Shallow embedding of `print_mesh_statistics` (`src/femref/cubit_utils.py`
lines 45-64), as the list of printed lines.  The session accessors
`get_node_count`, `get_element_count`, `parse_cubit_list("nodeset", "all")`
and `get_nodeset_node_count` are passed in as data. -/
def print_mesh_statistics (num_nodes num_elements : Nat)
    (nodeset_ids : List Nat) (get_nodeset_node_count : Nat → Nat) :
    List String :=
  ("Total nodes:        " ++ toString num_nodes) ::
  ("Total elements:     " ++ toString num_elements) ::
  nodeset_ids.map
    (fun nsid =>
      "Nodes in Nodeset " ++ toString nsid ++ ": "
        ++ toString (get_nodeset_node_count nsid))

/-- The top-level functions defined in `src/femref/cubit_utils.py`, in
source order. -/
def femref_cubit_utils_functions : List String :=
  ["cubit_cmd", "print_mesh_statistics"]

/-- The top-level functions defined in `src/femref/utils.py`. -/
def femref_utils_functions : List String :=
  ["write_readme"]

/-- All functions of the shared modules (the `femref` package). -/
def femref_shared_functions : List String :=
  femref_cubit_utils_functions ++ femref_utils_functions

/-- Sample session for exercising `cubit_cmd`: two tracked entities exist. -/
def sampleCubit : CubitPy := ⟨fun _ => [1, 2]⟩

/-- Sample meshing-engine effect creating one new entity with ID 3. -/
def sampleEffectOne : String → CubitPy → CubitPy :=
  fun _ c => ⟨fun t => 3 :: c.parse_cubit_list t⟩

/-- Sample meshing-engine effect creating two new entities, 3 and 4. -/
def sampleEffectTwo : String → CubitPy → CubitPy :=
  fun _ c => ⟨fun t => 3 :: 4 :: c.parse_cubit_list t⟩

/-! ## The generator scripts as event traces

Each generator script is a straight-line sequence of interactions with the
meshing session and, at the end, file emission through it.  We model a run
of a script as the list of these effects, in program order.  Values the
script reads back from the session (`cubit.get_last_id`) are inputs of the
model, since the session is opaque.  Read-only queries emit no event. -/

/-- `cupy.bc_type` members used by the repository. -/
inductive BcType where
  | dirichlet
  | neumann
  | solid_to_solid_curve_contact
deriving DecidableEq

/-- `cupy.element_type` members used by the repository. -/
inductive ElementType where
  | quad4
  | hex8
deriving DecidableEq

/-- One effect of a generator script on the meshing session or, through it,
on the file system. -/
inductive Event where
  | cmd (command : String)
  | group (add_value : String) (name : Option String)
  | add_node_set (name : String) (bc_type : BcType) (bc_description : PyVal)
  | add_element_type (el_type : ElementType) (bc_description : PyVal)
  | set_head (head : String)
  | create_dat (filename : String)
  | display_in_cubit
  | print_mesh_stats

namespace BendingBeam

/-- `SHOW_STEP` of `generate_hyperelastic_bending_beam.py`. -/
def SHOW_STEP : List Bool := [false, false, false]

/-- `SHOW_FINAL` of `generate_hyperelastic_bending_beam.py`. -/
def SHOW_FINAL : Bool := false

/-- The `OPTIONS` dictionary of `generate_hyperelastic_bending_beam.py`
(lines 63-87), with every numeric value rendered as Python renders it. -/
def OPTIONS : List (String × PyVal) :=
  [("title", .vStr "Hyperelastic bending beam with nonlinear kinematics under shear force"),
   ("description", .vStr "We simulate the large deformation of a hyperelastic bending beam by prescribing a Neumann BC which increases with the load step."),
   ("geometry", .vDict [("length", .vInt 20), ("height", .vInt 2)]),
   ("mesh", .vDict [("mesh_size", .vFloat "0.1")]),
   ("model", .vDict [("kinematics", .vStr "nonlinear"), ("stress_closure", .vStr "plane_strain")]),
   ("material", .vDict [("constitutive_law", .vStr "ELAST_CoupLogNeoHooke"),
                        ("shear_modulus", .vFloat "4170000000.0"),
                        ("lame_parameter", .vFloat "2780000000.0")]),
   ("boundary_conditions", .vDict [("max_shear_force", .vFloat "10000000.0"),
                                   ("load_steps", .vInt 50)])]

/-- The `cubit.head` template of `generate_hyperelastic_bending_beam.py`
(lines 160-208), with the f-string slots filled in: `LOAD_STEPS / 10.0` =
`5.0`, `1.0 / LOAD_STEPS` = `0.02`, `LOAD_STEPS` = `50`, `MUE` =
`4170000000.0`, `LAMBDA` = `2780000000.0`. -/
def headString : String :=
  "------------------------------------------------------------------PROBLEM SIZE
    DIM                             2
    ------------------------------------------------------------------PROBLEM TYPE
    PROBLEMTYPE                     Structure
    ----------------------------------------------------------------------------IO
    OUTPUT_BIN                      no
    STRUCT_DISP                     yes
    FILESTEPS                       1000
    VERBOSITY                       Standard
    STRUCT_STRAIN                   gl
    STRUCT_STRESS                   cauchy
    OUTPUT_SPRING                   Yes
    WRITE_INITIAL_STATE             yes
    ---------------------------------------------------------IO/RUNTIME VTK OUTPUT
    OUTPUT_DATA_FORMAT              binary
    INTERVAL_STEPS                  5.0
    EVERY_ITERATION                 no
    -----------------------------------------------IO/RUNTIME VTK OUTPUT/STRUCTURE
    OUTPUT_STRUCTURE                yes
    DISPLACEMENT                    yes
    ELEMENT_OWNER                   yes
    STRESS_STRAIN                   yes
    ------------------------------------------------------------STRUCTURAL DYNAMIC
    INT_STRATEGY                    Standard
    DYNAMICTYPE                     Statics
    RESULTSEVERY                    1
    RESTARTEVERY                    1
    TIMESTEP                        0.02
    NUMSTEP                         50
    MAXTIME                         1
    PREDICT                         TangDis
    NORM_RESF                       Rel
    TOLDISP                         1e-7
    TOLRES                          1e-7
    LINEAR_SOLVER                   1
    NLNSOL                          fullnewton
    MAXITER                         50
    ----------------------------------------------------------------------SOLVER 1
    NAME                            Structure_Solver
    SOLVER                          Superlu
    -----------------------------------------------------------STRUCT NOX/Printing
    Outer Iteration                 = Yes
    Inner Iteration                 = No
    Outer Iteration StatusTest      = No
    ---------------------------------------------------------------------MATERIALS
    MAT 1  MAT_ElastHyper NUMMAT 1 MATIDS 10 DENS 0.1
    MAT 10 ELAST_CoupLogNeoHooke MODE Lame C1 4170000000.0 C2 2780000000.0
    ------------------------------------------------------------------------FUNCT1
    SYMBOLIC_FUNCTION_OF_SPACE_TIME t"

/-- Trace of `generate_bending_beam(filename)`
(`generate_hyperelastic_bending_beam.py` lines 95-212).  `beam_id` is the
value of `cubit.get_last_id(cupy.geometry.surface)` read back after the
rectangle is created; the f-string slots are rendered as Python renders
them (`MESH_SIZE` = `0.1`, `-HEIGHT / 2 + EPS` = `-0.99999`,
`-LENGTH / 2 + EPS` = `-9.99999`, `HEIGHT / 2 - EPS` = `0.99999`,
`LENGTH / 2 - EPS` = `9.99999`, `-SHEAR_FORCE` = `-10000000.0`). -/
def generate_bending_beam (filename : String) (beam_id : Nat) : List Event :=
  [Event.cmd "create surface rectangle width 20 height 2 zplane"]
  ++ (if SHOW_STEP.getD 0 false then [Event.display_in_cubit] else [])
  ++ [Event.cmd ("surface " ++ toString beam_id ++ " size 0.1"),
      Event.cmd ("mesh surface " ++ toString beam_id)]
  ++ (if SHOW_STEP.getD 1 false then [Event.display_in_cubit] else [])
  ++ [Event.group "add curve with y_coord < -0.99999" none,
      Event.add_node_set "bottom" BcType.dirichlet
        (.vStr "NUMDOF 2 ONOFF 0 0 VAL 0 0 FUNCT 0 0"),
      Event.group "add curve with x_coord < -9.99999" none,
      Event.add_node_set "left" BcType.dirichlet
        (.vStr "NUMDOF 2 ONOFF 1 1 VAL 0 0 FUNCT 0 0"),
      Event.group "add curve with y_coord > 0.99999" none,
      Event.add_node_set "top" BcType.dirichlet
        (.vStr "NUMDOF 2 ONOFF 0 0 VAL 0 0 FUNCT 0 0"),
      Event.group "add curve with x_coord > 9.99999" none,
      Event.add_node_set "right" BcType.neumann
        (.vStr "NUMDOF 2 ONOFF 0 1 VAL 0 -10000000.0 FUNCT 0 1"),
      Event.add_element_type ElementType.quad4
        (.vStr "KINEM nonlinear EAS none THICK 1 STRESS_STRAIN plane_strain GP 2 2"),
      Event.print_mesh_stats]
  ++ (if SHOW_STEP.getD 2 false || SHOW_FINAL then [Event.display_in_cubit] else [])
  ++ [Event.set_head headString,
      Event.create_dat filename]

end BendingBeam

namespace BlockTorsion

/-- `SHOW_STEP` of `generate_block_torsion.py`. -/
def SHOW_STEP : List Bool := [false, false, false, false]

/-- `SHOW_FINAL` of `generate_block_torsion.py`. -/
def SHOW_FINAL : Bool := true

/-- The `OPTIONS` dictionary of `generate_block_torsion.py` (lines 56-80). -/
def OPTIONS : List (String × PyVal) :=
  [("title", .vStr "Torsion of a block with non-linear kinematic behavior"),
   ("description", .vStr "We simulate the torsion of a block by prescribing a Dirichlet BC which increases with the load step."),
   ("geometry", .vDict [("length", .vInt 4), ("height", .vInt 1), ("depth", .vInt 1)]),
   ("mesh", .vDict [("mesh_size", .vFloat "0.1")]),
   ("model", .vDict [("kinematics", .vStr "nonlinear")]),
   ("material", .vDict [("constitutive_law", .vStr "ELAST_CoupLogNeoHooke"),
                        ("youngs_modulus", .vFloat "1.33"),
                        ("poisson_ratio", .vFloat "0.33")]),
   ("boundary_conditions", .vDict [("end_rotation", .vInt 150),
                                   ("load_steps", .vInt 50)])]

/-- The `cubit.head` template of `generate_block_torsion.py` (lines
144-198), with the f-string slots filled in: `LOAD_STEPS` = `50`,
`1.0 / LOAD_STEPS` = `0.02`, `YOUNG` = `1.33`, `POISSON` = `0.33`,
`2 * END_ROTATION / 360` = `0.8333333333333334`. -/
def headString : String :=
  "------------------------------------------------------------------PROBLEM SIZE
    DIM                             3
    ------------------------------------------------------------------PROBLEM TYPE
    PROBLEMTYPE                     Structure
    ----------------------------------------------------------------------------IO
    OUTPUT_BIN                      no
    STRUCT_DISP                     yes
    FILESTEPS                       1000
    VERBOSITY                       Standard
    STRUCT_STRAIN                   gl
    STRUCT_STRESS                   cauchy
    OUTPUT_SPRING                   Yes
    WRITE_INITIAL_STATE             yes
    ---------------------------------------------------------IO/RUNTIME VTK OUTPUT
    OUTPUT_DATA_FORMAT              binary
    INTERVAL_STEPS                  5
    EVERY_ITERATION                 no
    -----------------------------------------------IO/RUNTIME VTK OUTPUT/STRUCTURE
    OUTPUT_STRUCTURE                yes
    DISPLACEMENT                    yes
    ELEMENT_OWNER                   yes
    STRESS_STRAIN                   yes
    ------------------------------------------------------------STRUCTURAL DYNAMIC
    INT_STRATEGY                    Standard
    DYNAMICTYPE                     Statics
    RESULTSEVERY                    5
    RESTARTEVERY                    50
    TIMESTEP                        0.02
    NUMSTEP                         50
    MAXTIME                         1
    PREDICT                         ConstDis
    NORM_RESF                       Rel
    TOLDISP                         1e-7
    TOLRES                          1e-7
    NORMCOMBI_DISPPRES              And
    LINEAR_SOLVER                   1
    NLNSOL                          fullnewton
    MAXITER                         20
    ----------------------------------------------------------------------SOLVER 1
    NAME                            Structure_Solver
    SOLVER                          Superlu
    -----------------------------------------------------------STRUCT NOX/Printing
    Outer Iteration                 = Yes
    Inner Iteration                 = No
    Outer Iteration StatusTest      = Yes
    ---------------------------------------------------------------------MATERIALS
    MAT 1  MAT_ElastHyper NUMMAT 1 MATIDS 10 DENS 1
    MAT 10 ELAST_CoupLogNeoHooke MODE YN C1 1.33 C2 0.33
    ------------------------------------------------------------------------FUNCT1
    SYMBOLIC_FUNCTION_OF_SPACE_TIME y*cos(0.8333333333333334*pi*t)-z*sin(0.8333333333333334*pi*t)-y
    ------------------------------------------------------------------------FUNCT2
    SYMBOLIC_FUNCTION_OF_SPACE_TIME y*sin(0.8333333333333334*pi*t)+z*cos(0.8333333333333334*pi*t)-z"

/-- Trace of `generate_block(filename)` (`generate_block_torsion.py` lines
87-201).  `block_id` is the value of
`cubit.get_last_id(cupy.geometry.volume)` read back after the brick is
created; f-string slots rendered as Python renders them (`LENGTH / 2` =
`2.0`, `MESH_SIZE` = `0.1`, `EPS` = `1e-05`, `LENGTH - EPS` = `3.99999`). -/
def generate_block (filename : String) (block_id : Nat) : List Event :=
  [Event.cmd "brick x 4 y 1 z 1"]
  ++ (if SHOW_STEP.getD 0 false then [Event.display_in_cubit] else [])
  ++ [Event.cmd ("move volume " ++ toString block_id ++ " x 2.0 y 0 z 0 include_merged")]
  ++ (if SHOW_STEP.getD 1 false then [Event.display_in_cubit] else [])
  ++ [Event.cmd ("volume " ++ toString block_id ++ " size 0.1"),
      Event.cmd ("mesh volume " ++ toString block_id)]
  ++ (if SHOW_STEP.getD 2 false then [Event.display_in_cubit] else [])
  ++ [Event.group "add surface with x_coord < 1e-05" none,
      Event.add_node_set "rigid_left" BcType.dirichlet
        (.vStr "NUMDOF 3 ONOFF 1 1 1 VAL 0 0 0 FUNCT 0 0 0"),
      Event.group "add surface with x_coord > 3.99999" none,
      Event.add_node_set "torsion_right" BcType.dirichlet
        (.vStr "NUMDOF 3 ONOFF 1 1 1 VAL 0 1 1 FUNCT 0 1 2")]
  ++ (if SHOW_STEP.getD 3 false || SHOW_FINAL then [Event.display_in_cubit] else [])
  ++ [Event.add_element_type ElementType.hex8 (.vStr "KINEM nonlinear"),
      Event.print_mesh_stats,
      Event.set_head headString,
      Event.create_dat filename]

end BlockTorsion

namespace Semicircle

/-- `SHOW_STEP` of `generate_semicircle.py`. -/
def SHOW_STEP : List Bool := [false, false, false, false, false]

/-- `SHOW_FINAL` of `generate_semicircle.py`. -/
def SHOW_FINAL : Bool := true

/-- The `OPTIONS` dictionary of `generate_semicircle.py` (lines 65-89):
`H_ARCLOC` = `np.sqrt(0.5)` renders as `0.7071067811865476` and
`MESH_SIZE_INTERMEDIATE` = `0.5 * (0.1 + 0.02) / 2` as
`0.030000000000000002`. -/
def OPTIONS : List (String × PyVal) :=
  [("title", .vStr "Hertzian-type contact with large deformation"),
   ("description", .vStr "We simulate a two-dimensional hertzian-type contact problem by subjecting a 2D semicircle to a pressure on its top surface."),
   ("geometry", .vDict [("radius", .vInt 1), ("h_width", .vFloat "0.3"),
                        ("h_height", .vFloat "0.4"),
                        ("h_arcloc", .vFloat "0.7071067811865476")]),
   ("mesh", .vDict [("mesh_size_coarse", .vFloat "0.1"),
                    ("mesh_size_intermediate", .vFloat "0.030000000000000002"),
                    ("mesh_size_contact", .vFloat "0.02")]),
   ("model", .vDict [("kinematics", .vStr "nonlinear")]),
   ("material", .vDict [("constitutive_law", .vStr "ELAST_CoupLogNeoHooke"),
                        ("youngs_modulus", .vFloat "1.33"),
                        ("poisson_ratio", .vFloat "0.33")]),
   ("boundary_conditions", .vDict [("end_pressure", .vInt 5),
                                   ("load_steps", .vInt 50)])]

/-- Trace of `generate_semicircle(filename)` (`generate_semicircle.py` lines
97-258).  `filename` is the function's parameter; the body never uses it and
emits no file-writing effect.  `rigid_id` is the value of
`cubit.get_last_id(cupy.geometry.surface)` read back after the obstacle
rectangle is created; f-string slots rendered as Python renders them. -/
def generate_semicircle (filename : String) (rigid_id : Nat) : List Event :=
  [Event.cmd "create vertex 0 0 0",
   Event.cmd "create vertex 0.3 0 0",
   Event.cmd "create vertex 1 0 0",
   Event.cmd "create vertex 0.7071067811865476 -0.7071067811865476 0",
   Event.cmd "create vertex -0.7071067811865476 -0.7071067811865476 0",
   Event.cmd "create vertex -1 0 0",
   Event.cmd "create vertex -0.3 0 0",
   Event.cmd "create vertex -0.22499999999999998 -0.4 0",
   Event.cmd "create vertex 0.22499999999999998 -0.4 0"]
  ++ (if SHOW_STEP.getD 0 false then [Event.display_in_cubit] else [])
  ++ [Event.cmd "create curve vertex 2 3",
      Event.cmd "create curve arc center vertex 1 3 4 radius 1",
      Event.cmd "create curve arc center vertex 1 4 5 radius 1",
      Event.cmd "create curve arc center vertex 1 5 6 radius 1",
      Event.cmd "create curve vertex 6 7",
      Event.cmd "create curve vertex 7 2",
      Event.cmd "create curve vertex 4 9",
      Event.cmd "create curve vertex 9 2",
      Event.cmd "create curve vertex 5 8",
      Event.cmd "create curve vertex 8 7",
      Event.cmd "create curve vertex 8 9"]
  ++ (if SHOW_STEP.getD 1 false then [Event.display_in_cubit] else [])
  ++ [Event.cmd "create surface curve 1 2 7 8",
      Event.cmd "create surface curve 7 3 9 11",
      Event.cmd "create surface curve 10 9 4 5",
      Event.cmd "create surface curve 6 8 11 10",
      Event.group "add surface 1 2 3 4" (some "semicircle"),
      Event.cmd "imprint all",
      Event.cmd "merge all",
      Event.cmd "create surface rectangle width 2 height 0.1 zplane",
      Event.cmd ("move surface " ++ toString rigid_id ++ " x 0 y -1.05 z include_merged"),
      Event.group "add surface 5" (some "obstacle")]
  ++ (if SHOW_STEP.getD 2 false then [Event.display_in_cubit] else [])
  ++ [Event.cmd "curve 8  scheme bias fine size 0.030000000000000002 coarse size 0.1 start vertex 9",
      Event.cmd "curve 10 scheme bias fine size 0.030000000000000002 coarse size 0.1 start vertex 8",
      Event.cmd "curve 7  scheme bias fine size 0.02 coarse size 0.030000000000000002 start vertex 4",
      Event.cmd "curve 9  scheme bias fine size 0.02 coarse size 0.030000000000000002 start vertex 5",
      Event.cmd "curve 3  scheme bias fine size 0.02 factor 1.0 ",
      Event.cmd ("surface " ++ toString rigid_id ++ " size 2"),
      Event.cmd "mesh surface all"]
  ++ (if SHOW_STEP.getD 3 false then [Event.display_in_cubit] else [])
  ++ [Event.group "add curve with -1e-05 < y_coord and y_coord < 1e-05" none,
      Event.add_node_set "top_boundary_neumann" BcType.neumann
        (.vDict [("NUMDOF", .vInt 2),
                 ("ONOFF", .vList [.vInt 0, .vInt 1]),
                 ("VAL", .vList [.vInt 0, .vInt (-5)]),
                 ("FUNCT", .vList [.vInt 0, .vInt 1])]),
      Event.group "add curve with y_coord < -0.7070967811865476" none,
      Event.add_node_set "bottom_boundary_contact" BcType.solid_to_solid_curve_contact
        (.vDict [("InterfaceID", .vInt 1),
                 ("Side", .vStr "Slave"),
                 ("Initialization", .vStr "Inactive")]),
      Event.group "add surface in semicircle" none,
      Event.add_element_type ElementType.quad4
        (.vDict [("KINEM", .vStr "nonlinear")]),
      Event.group "add surface in obstacle" none,
      Event.add_element_type ElementType.quad4
        (.vDict [("KINEM", .vStr "nonlinear")]),
      Event.print_mesh_stats]
  ++ (if SHOW_STEP.getD 4 false || SHOW_FINAL then [Event.display_in_cubit] else [])

end Semicircle

/-! ## Trace predicates for the temporal and tagging claims -/

/-- The word before the first space of a character list. -/
def firstWord : List Char → List Char
  | [] => []
  | c :: rest => if c = ' ' then [] else c :: firstWord rest

/-- The phases the spec orders: geometry creation, meshing,
boundary-condition tagging, file emission. -/
inductive Phase where
  | geometry
  | meshing
  | tagging
  | emission
deriving DecidableEq

/-- Numeric rank of a phase in the spec's order. -/
def Phase.rank : Phase → Nat
  | .geometry => 0
  | .meshing => 1
  | .tagging => 2
  | .emission => 3

/-- Phase of a raw cubit command, read off its leading keyword: `create`,
`brick`, `move`, `imprint` and `merge` build geometry; `curve`, `surface`
and `volume` (sizing and scheme selection) and `mesh` belong to meshing. -/
def cmdPhase (command : String) : Option Phase :=
  let w := firstWord command.data
  if w == "create".data || w == "brick".data || w == "move".data
      || w == "imprint".data || w == "merge".data then
    some Phase.geometry
  else if w == "curve".data || w == "surface".data || w == "volume".data
      || w == "mesh".data then
    some Phase.meshing
  else
    none

/-- Phase of an event.  Group bookkeeping, visualization and statistics
printing are phase-neutral. -/
def eventPhase : Event → Option Phase
  | .cmd command => cmdPhase command
  | .group _ _ => none
  | .add_node_set _ _ _ => some Phase.tagging
  | .add_element_type _ _ => some Phase.tagging
  | .set_head _ => some Phase.emission
  | .create_dat _ => some Phase.emission
  | .display_in_cubit => none
  | .print_mesh_stats => none

/-- The ranks of a list are nondecreasing. -/
def ranksMonotone : List Nat → Bool
  | [] => true
  | [_] => true
  | a :: b :: rest => Nat.ble a b && ranksMonotone (b :: rest)

/-- The phased events of a trace occur in nondecreasing phase order:
geometry before meshing before tagging before emission. -/
def phasesOrdered (events : List Event) : Bool :=
  ranksMonotone ((events.filterMap eventPhase).map Phase.rank)

/-- An interaction with the meshing session (a command, group creation,
node-set or element-block registration). -/
def isSessionInteraction : Event → Bool
  | .cmd _ => true
  | .group _ _ => true
  | .add_node_set _ _ _ => true
  | .add_element_type _ _ => true
  | _ => false

/-- No meshing-session interaction occurs after any `create_dat` (solver
input file write) in the trace. -/
def noSessionInteractionAfterWrite : List Event → Bool
  | [] => true
  | Event.create_dat _ :: rest =>
    rest.all (fun e => !(isSessionInteraction e)) && noSessionInteractionAfterWrite rest
  | _ :: rest => noSessionInteractionAfterWrite rest

/-- The event writes the solver input file. -/
def isCreateDat : Event → Bool
  | .create_dat _ => true
  | _ => false

/-- Some event of the trace writes the solver input file to `filename`. -/
def writesInputTo (filename : String) (events : List Event) : Bool :=
  events.any (fun e =>
    match e with
    | .create_dat f => f == filename
    | _ => false)

/-- The boundary-condition type is one of the explicit kinds the spec names:
Dirichlet, Neumann or contact. -/
def BcType.isExplicitKind : BcType → Bool
  | .dirichlet => true
  | .neumann => true
  | .solid_to_solid_curve_contact => true

/-- A boundary-condition description with actual content: a non-empty
description string or a non-empty description dictionary. -/
def PyVal.isNonEmptyDescription : PyVal → Bool
  | .vStr s => !(s == "")
  | .vDict entries => !(entries.isEmpty)
  | _ => false

/-- Every node set added in the trace carries a non-empty name, an explicit
boundary-condition type and a non-empty boundary-condition description. -/
def nodeSetsWellTagged (events : List Event) : Bool :=
  events.all (fun e =>
    match e with
    | .add_node_set name bc_type bc_description =>
      !(name == "") && bc_type.isExplicitKind && bc_description.isNonEmptyDescription
    | _ => true)

/-- The trace adds at least one node set. -/
def addsNodeSets (events : List Event) : Bool :=
  events.any (fun e =>
    match e with
    | .add_node_set _ _ _ => true
    | _ => false)

/-! ## Helper lemmas on `write_readme` -/

theorem foldl_row_eq (entries : List (String × PyVal)) (a : String) :
    entries.foldl
      (fun a pv => a ++ "| " ++ pv.1 ++ " | " ++ pyStr pv.2 ++ " |\n") a
      = a ++ readmeTableRows entries := by
  induction entries generalizing a with
  | nil => simp [readmeTableRows]
  | cons pv rest ih =>
    rw [List.foldl_cons, ih]
    simp only [readmeTableRows, readmeTableRow]
    simp [String.append_assoc]

theorem readmeWriteStep_eq (acc : String) (kv : String × PyVal) :
    readmeWriteStep acc kv
      = acc ++ (match kv.2 with
          | .vDict entries => readmeSection kv.1 entries
          | _ => "") := by
  obtain ⟨k, v⟩ := kv
  cases v with
  | vDict entries =>
    show (entries.foldl _ _) ++ "\n\n" = _
    rw [foldl_row_eq]
    simp [readmeSection, String.append_assoc]
  | vInt n => simp [readmeWriteStep]
  | vFloat r => simp [readmeWriteStep]
  | vStr s => simp [readmeWriteStep]
  | vList elems => simp [readmeWriteStep]

theorem foldl_readmeWriteStep (options : List (String × PyVal)) (text : String) :
    options.foldl readmeWriteStep text = text ++ readmeSections options := by
  induction options generalizing text with
  | nil => simp [readmeSections]
  | cons kv rest ih =>
    rw [List.foldl_cons, ih, readmeWriteStep_eq]
    simp only [readmeSections]
    simp [String.append_assoc]

theorem dictGet_filter (keep : String × PyVal → Bool) (key : String)
    (hkeep : ∀ kv : String × PyVal, kv.1 = key → keep kv = true)
    (options : List (String × PyVal)) :
    dictGet (options.filter keep) key = dictGet options key := by
  induction options with
  | nil => rfl
  | cons kv rest ih =>
    by_cases hk : kv.1 = key
    · rw [List.filter_cons, if_pos (hkeep kv hk)]
      simp [dictGet, hk]
    · rw [List.filter_cons]
      by_cases hkept : keep kv = true
      · rw [if_pos hkept]
        simp [dictGet, hk, ih]
      · rw [if_neg hkept, ih]
        simp [dictGet, hk]

theorem foldl_readmeWriteStep_filter (options : List (String × PyVal))
    (text : String) :
    (options.filter
        (fun kv => kv.1 == "title" || kv.1 == "description" || kv.2.hasItems)).foldl
      readmeWriteStep text
      = options.foldl readmeWriteStep text := by
  induction options generalizing text with
  | nil => rfl
  | cons kv rest ih =>
    rw [List.filter_cons]
    by_cases hkept :
        (kv.1 == "title" || kv.1 == "description" || kv.2.hasItems) = true
    · rw [if_pos hkept, List.foldl_cons, List.foldl_cons, ih]
    · rw [if_neg hkept, List.foldl_cons, ih]
      have hstep : readmeWriteStep text kv = text := by
        obtain ⟨k, v⟩ := kv
        cases v <;> simp_all [readmeWriteStep, PyVal.hasItems]
      rw [hstep]

theorem pyEndswith_append (s : String) :
    pyEndswith (s ++ "/README.md") "README.md" = true := by
  simp only [pyEndswith, String.data_append, List.isSuffixOf,
    List.reverse_append]
  rfl

/-! ## Claim theorems for `write_readme` -/

/-- C3: for every options dictionary containing `'title'` and
`'description'`, `write_readme` writes a markdown file that begins with a
`# title` header and the description and then, for each entry of `options`
whose value is itself a dictionary, a `## key` section with the two-column
`| Parameter | Value |` table holding exactly one row per key-value pair of
that nested dictionary, in its iteration order (followed by the
`Last updated` stamp). -/
theorem write_readme_structure (filepath : String)
    (options : List (String × PyVal)) (now : String) (title description : PyVal)
    (htitle : dictGet options "title" = some title)
    (hdescription : dictGet options "description" = some description) :
    write_readme filepath options now
      = .ok ⟨readme_filepath filepath,
          "# " ++ pyStr title ++ "\n\n" ++ pyStr description ++ "\n\n\n"
            ++ readmeSections options
            ++ "Last updated: " ++ now ++ "\n"⟩ := by
  simp only [write_readme, htitle, hdescription, foldl_readmeWriteStep]

/-- Witness for C3 at the bending-beam script's `OPTIONS` dictionary. -/
theorem write_readme_structure_witness :
    dictGet BendingBeam.OPTIONS "title"
        = some (PyVal.vStr "Hyperelastic bending beam with nonlinear kinematics under shear force")
    ∧ dictGet BendingBeam.OPTIONS "description"
        = some (PyVal.vStr "We simulate the large deformation of a hyperelastic bending beam by prescribing a Neumann BC which increases with the load step.")
    ∧ write_readme "./README.md" BendingBeam.OPTIONS "May 01, 2025 at 10:00AM "
        = .ok ⟨readme_filepath "./README.md",
            "# " ++ pyStr (PyVal.vStr "Hyperelastic bending beam with nonlinear kinematics under shear force")
              ++ "\n\n"
              ++ pyStr (PyVal.vStr "We simulate the large deformation of a hyperelastic bending beam by prescribing a Neumann BC which increases with the load step.")
              ++ "\n\n\n"
              ++ readmeSections BendingBeam.OPTIONS
              ++ "Last updated: " ++ "May 01, 2025 at 10:00AM " ++ "\n"⟩ :=
  ⟨rfl, rfl, write_readme_structure "./README.md" BendingBeam.OPTIONS
    "May 01, 2025 at 10:00AM " _ _ rfl rfl⟩

/-- C8: `write_readme` raises a `KeyError` — after the output file has been
opened at its resolved path, leaving behind the text written so far —
whenever `options` lacks the `'title'` key (nothing yet written) or the
`'description'` key (only the title header written); and top-level entries
whose values are not dictionaries, other than `'title'` and
`'description'`, never influence the written README: filtering them out of
`options` leaves the result of `write_readme` unchanged. -/
theorem write_readme_keyerror_and_plain_entries :
    (∀ (filepath : String) (options : List (String × PyVal)) (now : String),
      dictGet options "title" = none →
        write_readme filepath options now
          = .error (.keyError "title" (readme_filepath filepath) ""))
  ∧ (∀ (filepath : String) (options : List (String × PyVal)) (now : String)
        (title : PyVal),
      dictGet options "title" = some title →
      dictGet options "description" = none →
        write_readme filepath options now
          = .error (.keyError "description" (readme_filepath filepath)
              ("# " ++ pyStr title ++ "\n\n")))
  ∧ (∀ (filepath : String) (options : List (String × PyVal)) (now : String),
      write_readme filepath
        (options.filter
          (fun kv => kv.1 == "title" || kv.1 == "description" || kv.2.hasItems))
        now
        = write_readme filepath options now) := by
  refine ⟨?_, ?_, ?_⟩
  · intro filepath options now htitle
    simp [write_readme, htitle]
  · intro filepath options now title htitle hdescription
    simp [write_readme, htitle, hdescription]
  · intro filepath options now
    have htitle :
        dictGet (options.filter
            (fun kv => kv.1 == "title" || kv.1 == "description" || kv.2.hasItems))
          "title" = dictGet options "title" := by
      refine dictGet_filter _ _ ?_ options
      intro kv hk
      simp [hk]
    have hdescription :
        dictGet (options.filter
            (fun kv => kv.1 == "title" || kv.1 == "description" || kv.2.hasItems))
          "description" = dictGet options "description" := by
      refine dictGet_filter _ _ ?_ options
      intro kv hk
      simp [hk]
    simp only [write_readme, htitle, hdescription, foldl_readmeWriteStep_filter]

/-- Witness for C8: a dictionary missing `'title'`, one missing
`'description'`, and one with a plain non-dict entry that leaves the output
unchanged when dropped. -/
theorem write_readme_keyerror_witness :
    (write_readme "./out" [("description", PyVal.vStr "d")] "now"
      = .error (.keyError "title" (readme_filepath "./out") ""))
    ∧ (write_readme "./out" [("title", PyVal.vStr "t")] "now"
      = .error (.keyError "description" (readme_filepath "./out")
          ("# " ++ pyStr (PyVal.vStr "t") ++ "\n\n")))
    ∧ (write_readme "./out"
        ([("title", PyVal.vStr "t"), ("description", PyVal.vStr "d"),
          ("load_steps", PyVal.vInt 50)].filter
          (fun kv => kv.1 == "title" || kv.1 == "description" || kv.2.hasItems))
        "now"
      = write_readme "./out"
          [("title", PyVal.vStr "t"), ("description", PyVal.vStr "d"),
           ("load_steps", PyVal.vInt 50)] "now") :=
  ⟨write_readme_keyerror_and_plain_entries.1 "./out"
      [("description", PyVal.vStr "d")] "now" rfl,
   write_readme_keyerror_and_plain_entries.2.1 "./out"
      [("title", PyVal.vStr "t")] "now" (PyVal.vStr "t") rfl rfl,
   write_readme_keyerror_and_plain_entries.2.2 "./out"
      [("title", PyVal.vStr "t"), ("description", PyVal.vStr "d"),
       ("load_steps", PyVal.vInt 50)] "now"⟩

/-- C9: the file `write_readme` touches — also when it dies with a
`KeyError` after opening it — is always at a path ending in `README.md`:
the given filepath itself when it already ends in `README.md`, and the
filepath with `/README.md` appended otherwise. -/
theorem write_readme_path_ends_in_readme (filepath : String)
    (options : List (String × PyVal)) (now : String) :
    readmePathOf (write_readme filepath options now) = readme_filepath filepath
    ∧ pyEndswith (readmePathOf (write_readme filepath options now))
        "README.md" = true := by
  have hpath :
      readmePathOf (write_readme filepath options now)
        = readme_filepath filepath := by
    simp only [write_readme]
    cases htitle : dictGet options "title" with
    | none => rfl
    | some title =>
      cases hdescription : dictGet options "description" with
      | none => rfl
      | some description => rfl
  refine ⟨hpath, ?_⟩
  rw [hpath, readme_filepath]
  by_cases hend : pyEndswith filepath "README.md" = true
  · rw [if_pos hend]
    exact hend
  · rw [if_neg hend]
    exact pyEndswith_append filepath

/-! ## Helper lemmas on `cubit_cmd` -/

theorem cubit_cmd_eq_match (command : String) (cubit : CubitPy)
    (cmdEffect : String → CubitPy → CubitPy) (track_id : String)
    (flatten_if_possible : Bool) :
    cubit_cmd command cubit cmdEffect track_id flatten_if_possible
      = match cubitNewIds command cubit cmdEffect track_id,
          flatten_if_possible with
        | [x], true => (cmdEffect command cubit, CubitIds.single x)
        | l, _ => (cmdEffect command cubit, CubitIds.ids l) := rfl

theorem cubitNewIds_nodup (command : String) (cubit : CubitPy)
    (cmdEffect : String → CubitPy → CubitPy) (track_id : String) :
    (cubitNewIds command cubit cmdEffect track_id).Nodup :=
  (List.nodup_dedup _).filter _

theorem cubitNewIds_toFinset (command : String) (cubit : CubitPy)
    (cmdEffect : String → CubitPy → CubitPy) (track_id : String) :
    (cubitNewIds command cubit cmdEffect track_id).toFinset
      = entitiesAfter command cubit cmdEffect track_id
          \ entitiesBefore cubit track_id := by
  ext i
  simp [cubitNewIds, entitiesAfter, entitiesBefore, List.mem_filter,
    List.mem_dedup, List.elem_iff]

theorem cubit_cmd_toFinset_eq (command : String) (cubit : CubitPy)
    (cmdEffect : String → CubitPy → CubitPy) (track_id : String)
    (flatten_if_possible : Bool) :
    (cubit_cmd command cubit cmdEffect track_id flatten_if_possible).2.toFinset
      = (cubitNewIds command cubit cmdEffect track_id).toFinset := by
  rw [cubit_cmd_eq_match]
  rcases cubitNewIds command cubit cmdEffect track_id with _ | ⟨x, _ | ⟨y, t⟩⟩ <;>
    cases flatten_if_possible <;>
      simp [CubitIds.toFinset]

/-! ## Claim theorems for `cubit_cmd` -/

/-- C2: for every command, session state and tracked entity type,
`cubit_cmd` returns exactly the set difference of the tracked entity IDs
present after executing the command minus those present before: every
returned ID exists after but not before the command, and no ID that existed
before the command (in particular no ID the command deleted, which exists
before but not after) is ever returned. -/
theorem cubit_cmd_returns_set_difference (command : String) (cubit : CubitPy)
    (cmdEffect : String → CubitPy → CubitPy) (track_id : String)
    (flatten_if_possible : Bool) :
    (cubit_cmd command cubit cmdEffect track_id flatten_if_possible).2.toFinset
      = entitiesAfter command cubit cmdEffect track_id
          \ entitiesBefore cubit track_id
    ∧ (∀ i,
        i ∈ (cubit_cmd command cubit cmdEffect track_id
              flatten_if_possible).2.toFinset
          ↔ i ∈ entitiesAfter command cubit cmdEffect track_id
              ∧ i ∉ entitiesBefore cubit track_id) := by
  have hmain :
      (cubit_cmd command cubit cmdEffect track_id
          flatten_if_possible).2.toFinset
        = entitiesAfter command cubit cmdEffect track_id
            \ entitiesBefore cubit track_id := by
    rw [cubit_cmd_toFinset_eq, cubitNewIds_toFinset]
  refine ⟨hmain, fun i => ?_⟩
  rw [hmain, Finset.mem_sdiff]

/-- C7: with `flatten_if_possible=True`, `cubit_cmd` returns a single ID
exactly when the command created exactly one new tracked entity; with zero
or several new entities it returns a list of the new IDs (empty for zero);
and with `flatten_if_possible=False` it always returns a list. -/
theorem cubit_cmd_flatten_behavior (command : String) (cubit : CubitPy)
    (cmdEffect : String → CubitPy → CubitPy) (track_id : String) :
    ((∃ x, (cubit_cmd command cubit cmdEffect track_id true).2
        = CubitIds.single x)
      ↔ (entitiesAfter command cubit cmdEffect track_id
          \ entitiesBefore cubit track_id).card = 1)
    ∧ (∀ l, (cubit_cmd command cubit cmdEffect track_id true).2
          = CubitIds.ids l →
        l.toFinset
            = entitiesAfter command cubit cmdEffect track_id
                \ entitiesBefore cubit track_id
          ∧ l.length ≠ 1)
    ∧ (entitiesAfter command cubit cmdEffect track_id
          \ entitiesBefore cubit track_id = ∅ →
        (cubit_cmd command cubit cmdEffect track_id true).2 = CubitIds.ids [])
    ∧ (∃ l, (cubit_cmd command cubit cmdEffect track_id false).2
          = CubitIds.ids l
        ∧ l.toFinset
            = entitiesAfter command cubit cmdEffect track_id
                \ entitiesBefore cubit track_id) := by
  have hfin := cubitNewIds_toFinset command cubit cmdEffect track_id
  have hnodup := cubitNewIds_nodup command cubit cmdEffect track_id
  have hcard :
      (entitiesAfter command cubit cmdEffect track_id
        \ entitiesBefore cubit track_id).card
        = (cubitNewIds command cubit cmdEffect track_id).length := by
    rw [← hfin]
    exact List.toFinset_card_of_nodup hnodup
  rw [cubit_cmd_eq_match, cubit_cmd_eq_match]
  rcases hl : cubitNewIds command cubit cmdEffect track_id
    with _ | ⟨x, _ | ⟨y, t⟩⟩ <;>
    rw [hl] at hfin hcard
  · refine ⟨by simp [hcard], ?_, by simp, ⟨[], by simp, by rw [← hfin]⟩⟩
    intro l hli
    simp only [CubitIds.ids.injEq] at hli
    subst hli
    exact ⟨by rw [← hfin], by simp⟩
  · refine ⟨by simp [hcard], ?_, ?_, ⟨[x], by simp, by rw [← hfin]⟩⟩
    · intro l hli
      simp at hli
    · intro hempty
      rw [hempty] at hfin
      simp at hfin
  · refine ⟨by simp [hcard], ?_, ?_, ⟨x :: y :: t, by simp, by rw [← hfin]⟩⟩
    · intro l hli
      simp only [CubitIds.ids.injEq] at hli
      subst hli
      refine ⟨by rw [← hfin], by simp⟩
    · intro hempty
      rw [hempty] at hfin
      simp at hfin

/-- Witness for C7 at concrete sessions: one new entity flattens to a
single ID, and no new entities yield the empty list. -/
theorem cubit_cmd_flatten_behavior_witness :
    (∃ x, (cubit_cmd "brick x 1 y 1 z 1" sampleCubit sampleEffectOne
        "volume" true).2 = CubitIds.single x)
    ∧ ((cubit_cmd "comment" sampleCubit (fun _ c => c) "volume" true).2
        = CubitIds.ids [])
    ∧ ([3, 4].toFinset
          = entitiesAfter "webcut" sampleCubit sampleEffectTwo "volume"
              \ entitiesBefore sampleCubit "volume"
        ∧ [3, 4].length ≠ 1) :=
  ⟨(cubit_cmd_flatten_behavior "brick x 1 y 1 z 1" sampleCubit sampleEffectOne
      "volume").1.mpr (by decide),
   (cubit_cmd_flatten_behavior "comment" sampleCubit (fun _ c => c)
      "volume").2.2.1 (by decide),
   (cubit_cmd_flatten_behavior "webcut" sampleCubit sampleEffectTwo
      "volume").2.1 [3, 4] rfl⟩

/-! ## Claim theorems for the shared modules (C4) -/

/-- C4 (counterexample): the shared modules do not consist of exactly the
two utility functions the spec names; `print_mesh_statistics` is a third
top-level function of `src/femref/cubit_utils.py`, distinct from
`cubit_cmd` and `write_readme`. -/
theorem shared_modules_not_just_two_functions :
    femref_shared_functions.length = 3
    ∧ "print_mesh_statistics" ∈ femref_shared_functions
    ∧ "print_mesh_statistics" ≠ "cubit_cmd"
    ∧ "print_mesh_statistics" ≠ "write_readme" := by
  refine ⟨rfl, ?_, ?_, ?_⟩ <;> decide

/-- C4 (amended): the shared modules consist of exactly three utility
functions — `cubit_cmd` (diffing entity-ID sets before/after a command),
`print_mesh_statistics` (printing total node/element counts and a line per
nodeset), and `write_readme` (writing a markdown table from a dictionary) —
and `print_mesh_statistics` prints exactly two total lines plus one line
per nodeset. -/
theorem shared_modules_contents :
    femref_shared_functions
      = ["cubit_cmd", "print_mesh_statistics", "write_readme"]
    ∧ (∀ (num_nodes num_elements : Nat) (nodeset_ids : List Nat)
          (get_nodeset_node_count : Nat → Nat),
        (print_mesh_statistics num_nodes num_elements nodeset_ids
            get_nodeset_node_count).length = 2 + nodeset_ids.length) := by
  refine ⟨rfl, ?_⟩
  intro num_nodes num_elements nodeset_ids get_nodeset_node_count
  simp [print_mesh_statistics]
  omega

/-! ## Claim theorems for the generator scripts (C1, C5, C6) -/

/-- C1 (code-bug evidence): `generate_semicircle` never writes the solver
input file — its trace contains no file write at all, in particular not at
the filename it is invoked with from its script block — although
`generate_bending_beam` and `generate_block` do write theirs, and every
script's `OPTIONS` dictionary yields a README through `write_readme`. -/
theorem generate_semicircle_writes_no_input_file :
    ((Semicircle.generate_semicircle "./nonlinear/hertzian_contact.yaml" 5).all
        (fun e => !(isCreateDat e)) = true)
    ∧ (∀ (filename : String) (rigid_id : Nat),
        (Semicircle.generate_semicircle filename rigid_id).all
          (fun e => !(isCreateDat e)) = true)
    ∧ (∀ (filename : String) (beam_id : Nat),
        writesInputTo filename
          (BendingBeam.generate_bending_beam filename beam_id) = true)
    ∧ (∀ (filename : String) (block_id : Nat),
        writesInputTo filename
          (BlockTorsion.generate_block filename block_id) = true)
    ∧ (∀ now, ∃ f, write_readme "./README.md" BendingBeam.OPTIONS now
        = .ok f)
    ∧ (∀ now, ∃ f, write_readme "./nonlinear/README.md" BlockTorsion.OPTIONS now
        = .ok f)
    ∧ (∀ now, ∃ f, write_readme "./nonlinear/README.md" Semicircle.OPTIONS now
        = .ok f) := by
  refine ⟨rfl, fun filename rigid_id => rfl, ?_, ?_, ?_, ?_, ?_⟩
  · intro filename beam_id
    simp [writesInputTo, BendingBeam.generate_bending_beam,
      BendingBeam.SHOW_STEP, BendingBeam.SHOW_FINAL]
  · intro filename block_id
    simp [writesInputTo, BlockTorsion.generate_block,
      BlockTorsion.SHOW_STEP, BlockTorsion.SHOW_FINAL]
  · intro now
    exact ⟨_, rfl⟩
  · intro now
    exact ⟨_, rfl⟩
  · intro now
    exact ⟨_, rfl⟩

/-- C5: every generator script tags entities into named
boundary-condition sets: each trace adds node sets, and every node set
added carries a non-empty name, an explicit boundary-condition type
(Dirichlet, Neumann or contact) and a non-empty boundary-condition
description. -/
theorem node_sets_named_and_typed :
    (∀ (filename : String) (beam_id : Nat),
      nodeSetsWellTagged (BendingBeam.generate_bending_beam filename beam_id)
          = true
      ∧ addsNodeSets (BendingBeam.generate_bending_beam filename beam_id)
          = true)
    ∧ (∀ (filename : String) (block_id : Nat),
        nodeSetsWellTagged (BlockTorsion.generate_block filename block_id)
            = true
        ∧ addsNodeSets (BlockTorsion.generate_block filename block_id)
            = true)
    ∧ (∀ (filename : String) (rigid_id : Nat),
        nodeSetsWellTagged (Semicircle.generate_semicircle filename rigid_id)
            = true
        ∧ addsNodeSets (Semicircle.generate_semicircle filename rigid_id)
            = true) :=
  ⟨fun _ _ => ⟨rfl, rfl⟩, fun _ _ => ⟨rfl, rfl⟩, fun _ _ => ⟨rfl, rfl⟩⟩

/-- C6: in every generator script the session effects are phase-ordered —
geometry creation before meshing, meshing before boundary-condition
tagging, tagging before file emission — and no meshing-session interaction
is ever issued after the solver input file has been written. -/
theorem generator_effects_phase_ordered :
    (∀ (filename : String) (beam_id : Nat),
      phasesOrdered (BendingBeam.generate_bending_beam filename beam_id)
          = true
      ∧ noSessionInteractionAfterWrite
          (BendingBeam.generate_bending_beam filename beam_id) = true)
    ∧ (∀ (filename : String) (block_id : Nat),
        phasesOrdered (BlockTorsion.generate_block filename block_id) = true
        ∧ noSessionInteractionAfterWrite
            (BlockTorsion.generate_block filename block_id) = true)
    ∧ (∀ (filename : String) (rigid_id : Nat),
        phasesOrdered (Semicircle.generate_semicircle filename rigid_id)
            = true
        ∧ noSessionInteractionAfterWrite
            (Semicircle.generate_semicircle filename rigid_id) = true) :=
  ⟨fun _ _ => ⟨rfl, rfl⟩, fun _ _ => ⟨rfl, rfl⟩, fun _ _ => ⟨rfl, rfl⟩⟩
